import Mathlib

/-!
Shallow embedding of the `wrywebview` Rust crate
(`src/wrywebview/src/main/rust/lib.rs`, with `state.rs` a module-split
duplicate of the same registry code).

Modelling decisions:
* `ThreadId` is a `Nat`; the calling thread is an explicit `tid` argument of
  every `_inner` operation.  The platform dispatchers (`run_on_main_thread`,
  `run_on_gtk_thread`, `DispatchQueue`) only marshal the `_inner` body onto a
  thread and are not part of the embedded logic.
* The registry `WEBVIEWS: Mutex<HashMap<u64, WebViewEntry>>` is an association
  list with HashMap semantics (insert replaces, lookup finds the key, remove
  deletes the key).  `NEXT_ID: AtomicU64` is the `nextId` field.
* The native `wry::WebView` layer is external to the repository; calls into it
  (`build_as_child`, `set_bounds`, `load_url`, `evaluate_script`, dropping the
  boxed webview) are recorded in an event trace, so "the native resource is not
  touched" is the statement that the trace is unchanged.  Failures of the
  external layer during creation are an oracle in `Env`; the per-operation
  native calls are modelled as succeeding, since no embedded logic depends on
  their failure.
* The Arc-shared `WebViewState` of an entry is stored in the entry itself;
  a store through the Arc is an update of that entry's state in the registry.
* The Objective-C runtime consulted by `appkit_ns_view_from_handle` is a
  parameter `ObjcRuntime`: the outcome of the two `isKindOfClass` tests on the
  pointee, and the `contentView` of a window (address `0` encodes `nil`).  The
  `AnyClass::get` lookups of `"NSWindow"`/`"NSView"` succeed on any system
  where AppKit objects exist, so they are not modelled as failing.
-/

namespace WryWebview

/-- Rust `WebViewError` from lib.rs. -/
inductive WebViewError
  | UnsupportedPlatform
  | InvalidWindowHandle
  | WebViewNotFound (id : Nat)
  | WrongThread (id : Nat)
  | WryError (msg : String)
  | GtkInit (msg : String)
  | Internal (msg : String)
deriving DecidableEq, Repr

/-- Rust `WebViewState`: the Arc-shared navigation state of one webview. -/
structure WebViewState where
  is_loading : Bool
  current_url : String
deriving DecidableEq, Repr

/-- Rust `WebViewEntry` (the `*mut WebView` is identified by the entry's id in the
native-call trace, so it is not a separate field). -/
structure WebViewEntry where
  thread_id : Nat
  state : WebViewState
deriving DecidableEq, Repr

/-- Rust `wry::Rect` as produced by `make_bounds` (logical position and size). -/
structure Rect where
  x : Int
  y : Int
  width : Int
  height : Int
deriving DecidableEq, Repr

/-- Rust `make_bounds` from lib.rs: clamps width and height to a minimum of 1
(`width.max(1)`, `height.max(1)`). -/
def make_bounds (x y width height : Int) : Rect :=
  { x := x, y := y, width := max width 1, height := max height 1 }

/-- Resolved `RawWindowHandle` variants produced by `raw_window_handle_from`. -/
inductive RawWindowHandle
  | win32 (hwnd : Nat)
  | appKit (ns_view : Nat)
  | xlib (window : Nat)
deriving DecidableEq, Repr

/-- Calls into the external native webview layer, recorded as a trace. -/
inductive NativeCall
  | build (parent : RawWindowHandle) (bounds : Rect) (url : String)
  | setBounds (id : Nat) (bounds : Rect)
  | loadUrl (id : Nat) (url : String)
  | evalScript (id : Nat) (script : String)
  | dropWebView (id : Nat)
deriving DecidableEq, Repr

/-- The compile-time platform (`target_os`). -/
inductive Platform
  | windows
  | macos
  | linux
  | otherOs
deriving DecidableEq, Repr

/-- Outcome of the runtime class tests in `appkit_ns_view_from_handle`:
`isKindOfClass: NSWindow`, else `isKindOfClass: NSView`, else neither. -/
inductive ObjcKind
  | nsWindow
  | nsView
  | otherKind
deriving DecidableEq, Repr

/-- The Objective-C runtime as seen by `appkit_ns_view_from_handle`: the class
identity of the pointee at each address, and each window's `contentView`
address (`0` encodes a `nil` content view). -/
structure ObjcRuntime where
  classKind : Nat → ObjcKind
  contentView : Nat → Nat

/-- The per-call environment: the platform, the Objective-C runtime, and the
failure oracles of the external layers used during creation (`gtk::init()` on
linux, `WebViewBuilder::build_as_child`). -/
structure Env where
  platform : Platform
  objc : ObjcRuntime
  gtkInitFailure : Option String
  buildFailure : Option String

/-- Rust `appkit_ns_view_from_handle` from lib.rs (macOS): `NonNull::new` rejects
address 0; a pointee that is kind-of `NSWindow` yields its `contentView`
(failing if that is nil); a pointee that is kind-of `NSView` yields the input
pointer unchanged; anything else is `InvalidWindowHandle`. -/
def appkit_ns_view_from_handle (rt : ObjcRuntime) (parent_handle : Nat) :
    Except WebViewError Nat :=
  if parent_handle = 0 then .error .InvalidWindowHandle
  else
    match rt.classKind parent_handle with
    | .nsWindow =>
        let view := rt.contentView parent_handle
        if view = 0 then .error .InvalidWindowHandle else .ok view
    | .nsView => .ok parent_handle
    | .otherKind => .error .InvalidWindowHandle

/-- Rust `raw_window_handle_from` from lib.rs: handle 0 is rejected on every
platform before any per-platform branch; windows wraps the nonzero integer
(the `NonZeroIsize::new` of a nonzero u64 bit-cast cannot fail), macos resolves
through the Objective-C runtime, linux wraps the integer as an Xlib window id,
anything else is `UnsupportedPlatform`. -/
def raw_window_handle_from (env : Env) (parent_handle : Nat) :
    Except WebViewError RawWindowHandle :=
  if parent_handle = 0 then .error .InvalidWindowHandle
  else
    match env.platform with
    | .windows => .ok (.win32 parent_handle)
    | .macos =>
        match appkit_ns_view_from_handle env.objc parent_handle with
        | .error e => .error e
        | .ok v => .ok (.appKit v)
    | .linux => .ok (.xlib parent_handle)
    | .otherOs => .error .UnsupportedPlatform

/-- The process state: `NEXT_ID`, the `WEBVIEWS` registry map, and the trace
of calls made into the external native layer. -/
structure Sys where
  nextId : Nat
  entries : List (Nat × WebViewEntry)
  trace : List NativeCall
deriving DecidableEq, Repr

/-- The process state at startup: `NEXT_ID` is 1, the registry is empty. -/
def initSys : Sys := { nextId := 1, entries := [], trace := [] }

/-- Rust `HashMap::get`. -/
def mapLookup (m : List (Nat × WebViewEntry)) (k : Nat) : Option WebViewEntry :=
  match m with
  | [] => none
  | (k', v) :: rest => if k' = k then some v else mapLookup rest k

/-- Rust `HashMap::insert` (replaces an existing binding of the key). -/
def mapInsert (m : List (Nat × WebViewEntry)) (k : Nat) (v : WebViewEntry) :
    List (Nat × WebViewEntry) :=
  match m with
  | [] => [(k, v)]
  | (k', v') :: rest =>
      if k' = k then (k, v) :: rest else (k', v') :: mapInsert rest k v

/-- Rust `HashMap::remove`. -/
def mapRemove (m : List (Nat × WebViewEntry)) (k : Nat) :
    List (Nat × WebViewEntry) :=
  m.filter (fun p => p.1 != k)

/-- A store through an entry's Arc-shared `WebViewState`: the state of the
entry bound to `k` is replaced by `f` applied to it. -/
def mapUpdateState (m : List (Nat × WebViewEntry)) (k : Nat)
    (f : WebViewState → WebViewState) : List (Nat × WebViewEntry) :=
  match m with
  | [] => []
  | (k', v') :: rest =>
      if k' = k then (k', { v' with state := f v'.state }) :: mapUpdateState rest k f
      else (k', v') :: mapUpdateState rest k f

/-- Rust `with_webview` from lib.rs: look the entry up under the registry lock
(`WebViewNotFound` if absent), release the lock, check thread affinity
(`WrongThread` on mismatch), then run the body against the native webview —
here, record the body's native call in the trace. -/
def with_webview (sys : Sys) (tid : Nat) (id : Nat) (call : NativeCall) :
    Sys × Except WebViewError Unit :=
  match mapLookup sys.entries id with
  | none => (sys, .error (.WebViewNotFound id))
  | some entry =>
      if entry.thread_id ≠ tid then (sys, .error (.WrongThread id))
      else ({ sys with trace := sys.trace ++ [call] }, .ok ())

/-- Rust `get_state` from lib.rs: a shared handle to the entry's navigation state,
with no thread-affinity requirement. -/
def get_state (sys : Sys) (id : Nat) : Except WebViewError WebViewState :=
  match mapLookup sys.entries id with
  | none => .error (.WebViewNotFound id)
  | some entry => .ok entry.state

/-- Rust `state.is_loading.store(b, SeqCst)` through the Arc of entry `id`. -/
def set_loading (sys : Sys) (id : Nat) (b : Bool) : Sys :=
  { sys with
      entries := mapUpdateState sys.entries id (fun st => { st with is_loading := b }) }

/-- Rust `set_bounds_inner` from lib.rs. -/
def set_bounds_inner (sys : Sys) (tid : Nat) (id : Nat) (x y width height : Int) :
    Sys × Except WebViewError Unit :=
  let bounds := make_bounds x y width height
  with_webview sys tid id (.setBounds id bounds)

/-- Rust `load_url_inner` from lib.rs: `if let Ok(state) = get_state(id)` store
loading = true, then dispatch `webview.load_url` through `with_webview`. -/
def load_url_inner (sys : Sys) (tid : Nat) (id : Nat) (url : String) :
    Sys × Except WebViewError Unit :=
  let sys :=
    match get_state sys id with
    | .ok _ => set_loading sys id true
    | .error _ => sys
  with_webview sys tid id (.loadUrl id url)

/-- Rust `go_back_inner` from lib.rs. -/
def go_back_inner (sys : Sys) (tid : Nat) (id : Nat) :
    Sys × Except WebViewError Unit :=
  let sys :=
    match get_state sys id with
    | .ok _ => set_loading sys id true
    | .error _ => sys
  with_webview sys tid id (.evalScript id "window.history.back()")

/-- Rust `go_forward_inner` from lib.rs. -/
def go_forward_inner (sys : Sys) (tid : Nat) (id : Nat) :
    Sys × Except WebViewError Unit :=
  let sys :=
    match get_state sys id with
    | .ok _ => set_loading sys id true
    | .error _ => sys
  with_webview sys tid id (.evalScript id "window.history.forward()")

/-- Rust `reload_inner` from lib.rs. -/
def reload_inner (sys : Sys) (tid : Nat) (id : Nat) :
    Sys × Except WebViewError Unit :=
  let sys :=
    match get_state sys id with
    | .ok _ => set_loading sys id true
    | .error _ => sys
  with_webview sys tid id (.evalScript id "window.location.reload()")

/-- Rust `focus_inner` from lib.rs. -/
def focus_inner (sys : Sys) (tid : Nat) (id : Nat) :
    Sys × Except WebViewError Unit :=
  with_webview sys tid id
    (.evalScript id "document.documentElement.focus(); window.focus();")

/-- Rust `destroy_webview_inner` from lib.rs (same logic as `unregister` in
state.rs): absent id is a successful no-op; a present entry owned by another
thread is `WrongThread` and is left untouched; otherwise the entry is removed
and the boxed webview dropped (recorded as `dropWebView`). -/
def destroy_webview_inner (sys : Sys) (tid : Nat) (id : Nat) :
    Sys × Except WebViewError Unit :=
  match mapLookup sys.entries id with
  | none => (sys, .ok ())
  | some entry =>
      if entry.thread_id ≠ tid then (sys, .error (.WrongThread id))
      else
        ({ sys with
             entries := mapRemove sys.entries id,
             trace := sys.trace ++ [.dropWebView id] }, .ok ())

/-- Rust `get_url` from lib.rs: reads `current_url` through the Arc. -/
def get_url (sys : Sys) (id : Nat) : Except WebViewError String :=
  match get_state sys id with
  | .error e => .error e
  | .ok st => .ok st.current_url

/-- Rust `is_loading` from lib.rs: reads the loading flag through the Arc. -/
def is_loading (sys : Sys) (id : Nat) : Except WebViewError Bool :=
  match get_state sys id with
  | .error e => .error e
  | .ok st => .ok st.is_loading

/-- Rust `create_webview_inner` from lib.rs: resolve the parent handle, (on linux)
initialize gtk, build the webview as a child with state
`{ is_loading: true, current_url: url }`, then `NEXT_ID.fetch_add(1)` and
insert the entry owned by the calling thread. -/
def create_webview_inner (sys : Sys) (env : Env) (tid : Nat)
    (parent_handle : Nat) (width height : Int) (url : String) :
    Sys × Except WebViewError Nat :=
  match raw_window_handle_from env parent_handle with
  | .error e => (sys, .error e)
  | .ok raw =>
      match (if env.platform = .linux then env.gtkInitFailure else none) with
      | some msg => (sys, .error (.GtkInit msg))
      | none =>
          match env.buildFailure with
          | some msg => (sys, .error (.WryError msg))
          | none =>
              let state : WebViewState := { is_loading := true, current_url := url }
              let id := sys.nextId
              let entry : WebViewEntry := { thread_id := tid, state := state }
              ({ sys with
                   nextId := sys.nextId + 1,
                   entries := mapInsert sys.entries id entry,
                   trace := sys.trace ++ [.build raw (make_bounds 0 0 width height) url] },
               .ok id)

/-- Rust `PageLoadEvent` from wry as matched in the page-load handler. -/
inductive PageLoadEvent
  | started
  | finished
deriving DecidableEq, Repr

/-- The `with_on_page_load_handler` closure from `create_webview_inner`:
Started stores loading = true; Finished stores loading = false and the
finished url into `current_url`. -/
def page_load_handler (st : WebViewState) (event : PageLoadEvent) (url : String) :
    WebViewState :=
  match event with
  | .started => { st with is_loading := true }
  | .finished => { is_loading := false, current_url := url }

/-- The `with_navigation_handler` closure from `create_webview_inner`: stores
loading = true and the new target url, and returns true (allow navigation). -/
def navigation_handler (_st : WebViewState) (new_url : String) :
    WebViewState × Bool :=
  ({ is_loading := true, current_url := new_url }, true)

/-- Firing the page-load callback of webview `id` (the closure writes through
its captured Arc, i.e. the state of entry `id`). -/
def fire_page_load (sys : Sys) (id : Nat) (event : PageLoadEvent) (url : String) :
    Sys :=
  { sys with
      entries := mapUpdateState sys.entries id (fun st => page_load_handler st event url) }

/-- The resource operations routed through the registry, for quantification. -/
inductive ResOp
  | opSetBounds (x y width height : Int)
  | opLoadUrl (url : String)
  | opGoBack
  | opGoForward
  | opReload
  | opFocus
  | opDestroy
deriving DecidableEq, Repr

/-- Dispatch of a resource operation to its `_inner` body. -/
def run_resource_op (sys : Sys) (tid : Nat) (id : Nat) (op : ResOp) :
    Sys × Except WebViewError Unit :=
  match op with
  | .opSetBounds x y w h => set_bounds_inner sys tid id x y w h
  | .opLoadUrl url => load_url_inner sys tid id url
  | .opGoBack => go_back_inner sys tid id
  | .opGoForward => go_forward_inner sys tid id
  | .opReload => reload_inner sys tid id
  | .opFocus => focus_inner sys tid id
  | .opDestroy => destroy_webview_inner sys tid id

/-- The registry keys (the ids with a live entry). -/
def keysOf (m : List (Nat × WebViewEntry)) : List Nat := m.map Prod.fst

/-- The navigation-triggering resource operations: loadUrl, goBack,
goForward, reload. -/
def isNavOp : ResOp → Bool
  | .opLoadUrl _ => true
  | .opGoBack => true
  | .opGoForward => true
  | .opReload => true
  | _ => false

/-- A command of a run of the public surface: a create call (with the
environment of that call), a resource operation (destroy included), or an
asynchronous page-load callback firing. -/
inductive Cmd
  | cmdCreate (env : Env) (tid : Nat) (parent_handle : Nat)
      (width height : Int) (url : String)
  | cmdOp (tid : Nat) (id : Nat) (op : ResOp)
  | cmdPageLoad (id : Nat) (event : PageLoadEvent) (url : String)

/-- Whether `create_webview_inner` succeeds: it depends only on the call's
environment and the parent handle, never on the registry state. -/
def createOk (env : Env) (parent_handle : Nat) : Bool :=
  match raw_window_handle_from env parent_handle with
  | .error _ => false
  | .ok _ =>
      match (if env.platform = .linux then env.gtkInitFailure else none) with
      | some _ => false
      | none => env.buildFailure.isNone

/-- One command against the process state; the second component is the id
returned when the command is a successful create. -/
def stepCmd (sys : Sys) (c : Cmd) : Sys × Option Nat :=
  match c with
  | .cmdCreate env tid p w h url =>
      let r := create_webview_inner sys env tid p w h url
      (r.1, match r.2 with | .ok id => some id | .error _ => none)
  | .cmdOp tid id op => ((run_resource_op sys tid id op).1, none)
  | .cmdPageLoad id event url => (fire_page_load sys id event url, none)

/-- Run a command list, collecting the ids returned by successful creates. -/
def runCmds (sys : Sys) (cs : List Cmd) : Sys × List Nat :=
  match cs with
  | [] => (sys, [])
  | c :: rest =>
      let sr := stepCmd sys c
      let rest' := runCmds sr.1 rest
      (rest'.1, sr.2.toList ++ rest'.2)

/-- The number of successful creates in a command list. -/
def createCount (cs : List Cmd) : Nat :=
  match cs with
  | [] => 0
  | .cmdCreate env _ p _ _ _ :: rest =>
      if createOk env p then createCount rest + 1 else createCount rest
  | .cmdOp _ _ _ :: rest => createCount rest
  | .cmdPageLoad _ _ _ :: rest => createCount rest

/-- A concrete Objective-C runtime: address 4 is an `NSWindow` whose content
view lives at 12, address 5 is an `NSView`, everything else is neither. -/
def rtW : ObjcRuntime :=
  { classKind := fun n => if n = 4 then .nsWindow else if n = 5 then .nsView else .otherKind,
    contentView := fun n => if n = 4 then 12 else 0 }

/-- A registry with one entry: id 1, owned by thread 7, loading `https://a`. -/
def sysOne : Sys :=
  { nextId := 2,
    entries := [(1, { thread_id := 7, state := { is_loading := true, current_url := "https://a" } })],
    trace := [] }

/-- The environment of a windows-platform call whose external layers
succeed. -/
def envWin : Env :=
  { platform := .windows,
    objc := { classKind := fun _ => .otherKind, contentView := fun _ => 0 },
    gtkInitFailure := none,
    buildFailure := none }

/-- The process state after one successful create on `envWin` from thread 7
(parent handle 5, 640×480, initial url `https://example.test`). -/
def sysAfterCreate : Sys :=
  { nextId := 2,
    entries := [(1, { thread_id := 7,
                      state := { is_loading := true, current_url := "https://example.test" } })],
    trace := [.build (.win32 5) (make_bounds 0 0 640 480) "https://example.test"] }

end WryWebview

namespace WryWebview

theorem mapLookup_mapInsert_self (m : List (Nat × WebViewEntry)) (k : Nat)
    (v : WebViewEntry) : mapLookup (mapInsert m k v) k = some v := by
  induction m with
  | nil => simp [mapInsert, mapLookup]
  | cons p rest ih =>
      obtain ⟨k', v'⟩ := p
      by_cases h : k' = k
      · simp [mapInsert, mapLookup, h]
      · simp [mapInsert, mapLookup, h, ih]

theorem mapLookup_mapRemove_self (m : List (Nat × WebViewEntry)) (k : Nat) :
    mapLookup (mapRemove m k) k = none := by
  induction m with
  | nil => simp [mapRemove, mapLookup]
  | cons p rest ih =>
      obtain ⟨k', v'⟩ := p
      by_cases h : k' = k
      · simpa [mapRemove, List.filter_cons, h] using ih
      · simpa [mapRemove, List.filter_cons, h, mapLookup] using ih

theorem mapLookup_mapUpdateState_self (m : List (Nat × WebViewEntry)) (k : Nat)
    (f : WebViewState → WebViewState) :
    mapLookup (mapUpdateState m k f) k =
      (mapLookup m k).map (fun e => { e with state := f e.state }) := by
  induction m with
  | nil => simp [mapUpdateState, mapLookup]
  | cons p rest ih =>
      obtain ⟨k', v'⟩ := p
      by_cases h : k' = k
      · simp [mapUpdateState, mapLookup, h]
      · simp [mapUpdateState, mapLookup, h, ih]

/-- C7: for every platform-independent input, `setBounds` applies a size
clamped to at least 1×1: `make_bounds` clamps width and height to
`max (input, 1)`, and a successful `set_bounds_inner` dispatches exactly the
clamped rect to the native webview, rather than erroring on degenerate
sizes. -/
theorem set_bounds_clamps_to_min_one (sys : Sys) (tid id : Nat)
    (x y width height : Int) (entry : WebViewEntry)
    (hlook : mapLookup sys.entries id = some entry)
    (hth : entry.thread_id = tid) :
    1 ≤ (make_bounds x y width height).width ∧
    1 ≤ (make_bounds x y width height).height ∧
    (set_bounds_inner sys tid id x y width height).2 = .ok () ∧
    (set_bounds_inner sys tid id x y width height).1.trace
      = sys.trace ++ [.setBounds id (make_bounds x y width height)] := by
  refine ⟨by simp [make_bounds], by simp [make_bounds], ?_, ?_⟩ <;>
    simp [set_bounds_inner, with_webview, hlook, hth]

/-- C8: `create(parentHandle = 0, ...)` fails with `InvalidWindowHandle` on
every platform (the zero check precedes every per-platform branch of
`raw_window_handle_from`), and the process state — in particular the trace of
native calls — is untouched, so no native resource is created. -/
theorem create_zero_handle_invalid (sys : Sys) (env : Env) (tid : Nat)
    (width height : Int) (url : String) :
    create_webview_inner sys env tid 0 width height url
      = (sys, .error .InvalidWindowHandle) := by
  simp [create_webview_inner, raw_window_handle_from]

/-- C9: on macOS, for every nonzero handle, `appkit_ns_view_from_handle`
returns the content view's address when the pointee identifies as `NSWindow`
(provided the window has a content view), returns the input pointer unchanged
when it identifies as `NSView`, and fails with `InvalidWindowHandle` on any
other runtime identity. -/
theorem appkit_handle_resolution (rt : ObjcRuntime) (h : Nat) (hnz : h ≠ 0) :
    (rt.classKind h = .nsWindow → rt.contentView h ≠ 0 →
        appkit_ns_view_from_handle rt h = .ok (rt.contentView h)) ∧
    (rt.classKind h = .nsView →
        appkit_ns_view_from_handle rt h = .ok h) ∧
    (rt.classKind h = .otherKind →
        appkit_ns_view_from_handle rt h = .error .InvalidWindowHandle) := by
  refine ⟨fun h1 h2 => ?_, fun h1 => ?_, fun h1 => ?_⟩
  · simp [appkit_ns_view_from_handle, hnz, h1, h2]
  · simp [appkit_ns_view_from_handle, hnz, h1]
  · simp [appkit_ns_view_from_handle, hnz, h1]

/-- Witness for `appkit_handle_resolution` at the runtime `rtW`. -/
theorem appkit_handle_resolution_witness :
    appkit_ns_view_from_handle rtW 4 = .ok 12 ∧
    appkit_ns_view_from_handle rtW 5 = .ok 5 ∧
    appkit_ns_view_from_handle rtW 6 = .error .InvalidWindowHandle :=
  ⟨(appkit_handle_resolution rtW 4 (by decide)).1 rfl (by decide),
   (appkit_handle_resolution rtW 5 (by decide)).2.1 rfl,
   (appkit_handle_resolution rtW 6 (by decide)).2.2 rfl⟩

/-- Witness for `set_bounds_clamps_to_min_one` at a degenerate 0×0 request. -/
theorem set_bounds_clamps_to_min_one_witness :
    1 ≤ (make_bounds 10 20 0 0).width ∧
    1 ≤ (make_bounds 10 20 0 0).height ∧
    (set_bounds_inner sysOne 7 1 10 20 0 0).2 = .ok () ∧
    (set_bounds_inner sysOne 7 1 10 20 0 0).1.trace
      = sysOne.trace ++ [.setBounds 1 (make_bounds 10 20 0 0)] :=
  set_bounds_clamps_to_min_one sysOne 7 1 10 20 0 0
    ⟨7, ⟨true, "https://a"⟩⟩ (by rfl) (by rfl)

/-- C1: every resource operation routed through the registry (setBounds,
loadUrl, goBack, goForward, reload, focus, destroy) on an id whose entry
exists but whose recorded owning thread differs from the calling thread
returns `WrongThread(id)`, and no call reaches the native resource (the
native-call trace is unchanged). -/
theorem wrong_thread_rejects_and_preserves_native (sys : Sys) (tid id : Nat)
    (op : ResOp) (entry : WebViewEntry)
    (hlook : mapLookup sys.entries id = some entry)
    (hth : entry.thread_id ≠ tid) :
    (run_resource_op sys tid id op).2 = .error (.WrongThread id) ∧
    (run_resource_op sys tid id op).1.trace = sys.trace := by
  cases op with
  | opSetBounds x y w h =>
      simp [run_resource_op, set_bounds_inner, with_webview, hlook, hth]
  | opLoadUrl url =>
      simp [run_resource_op, load_url_inner, get_state, hlook, set_loading,
            with_webview, mapLookup_mapUpdateState_self, hth]
  | opGoBack =>
      simp [run_resource_op, go_back_inner, get_state, hlook, set_loading,
            with_webview, mapLookup_mapUpdateState_self, hth]
  | opGoForward =>
      simp [run_resource_op, go_forward_inner, get_state, hlook, set_loading,
            with_webview, mapLookup_mapUpdateState_self, hth]
  | opReload =>
      simp [run_resource_op, reload_inner, get_state, hlook, set_loading,
            with_webview, mapLookup_mapUpdateState_self, hth]
  | opFocus =>
      simp [run_resource_op, focus_inner, with_webview, hlook, hth]
  | opDestroy =>
      simp [run_resource_op, destroy_webview_inner, hlook, hth]

/-- Witness for `wrong_thread_rejects_and_preserves_native`: thread 8 touches
the webview owned by thread 7. -/
theorem wrong_thread_rejects_and_preserves_native_witness :
    (run_resource_op sysOne 8 1 .opGoBack).2 = .error (.WrongThread 1) ∧
    (run_resource_op sysOne 8 1 .opGoBack).1.trace = sysOne.trace :=
  wrong_thread_rejects_and_preserves_native sysOne 8 1 .opGoBack
    ⟨7, ⟨true, "https://a"⟩⟩ (by rfl) (by decide)

/-- Counterexample to C3 as stated: `destroy` on a never-issued id (id 5 in
the empty initial registry) returns success as a no-op, not
`NotFound(5)`. -/
theorem destroy_absent_id_succeeds_cex :
    run_resource_op initSys 0 5 .opDestroy = (initSys, .ok ()) ∧
    (run_resource_op initSys 0 5 .opDestroy).2 ≠ .error (.WebViewNotFound 5) := by
  exact ⟨rfl, fun hcontra => Except.noConfusion hcontra⟩

/-- C3 (amended): for an id with no registry entry (never issued, or already
destroyed), every resource operation except `destroy` — setBounds, loadUrl,
goBack, goForward, reload, focus, and the reads getUrl and isLoading —
returns `NotFound(id)`; `destroy` instead succeeds as a no-op. -/
theorem absent_id_yields_not_found (sys : Sys) (tid id : Nat) (op : ResOp)
    (habs : mapLookup sys.entries id = none) :
    (op ≠ .opDestroy →
        (run_resource_op sys tid id op).2 = .error (.WebViewNotFound id)) ∧
    run_resource_op sys tid id .opDestroy = (sys, .ok ()) ∧
    get_url sys id = .error (.WebViewNotFound id) ∧
    is_loading sys id = .error (.WebViewNotFound id) := by
  refine ⟨fun hne => ?_, ?_, ?_, ?_⟩
  · cases op with
    | opSetBounds x y w h =>
        simp [run_resource_op, set_bounds_inner, with_webview, habs]
    | opLoadUrl url =>
        simp [run_resource_op, load_url_inner, get_state, habs, with_webview]
    | opGoBack =>
        simp [run_resource_op, go_back_inner, get_state, habs, with_webview]
    | opGoForward =>
        simp [run_resource_op, go_forward_inner, get_state, habs, with_webview]
    | opReload =>
        simp [run_resource_op, reload_inner, get_state, habs, with_webview]
    | opFocus =>
        simp [run_resource_op, focus_inner, with_webview, habs]
    | opDestroy => exact absurd rfl hne
  · simp [run_resource_op, destroy_webview_inner, habs]
  · simp [get_url, get_state, habs]
  · simp [is_loading, get_state, habs]

/-- Witness for `absent_id_yields_not_found`: id 5 was never issued. -/
theorem absent_id_yields_not_found_witness :
    ((.opFocus : ResOp) ≠ .opDestroy →
        (run_resource_op initSys 0 5 .opFocus).2 = .error (.WebViewNotFound 5)) ∧
    run_resource_op initSys 0 5 .opDestroy = (initSys, .ok ()) ∧
    get_url initSys 5 = .error (.WebViewNotFound 5) ∧
    is_loading initSys 5 = .error (.WebViewNotFound 5) :=
  absent_id_yields_not_found initSys 0 5 .opFocus (by rfl)

/-- C4: `destroy` is idempotent.  Destroying an id with no registry entry
succeeds as a no-op leaving the state untouched; a successful destroy of a
live entry removes it and releases the native resource exactly once (exactly
one `dropWebView` event), and a second destroy of the same id then succeeds
without touching anything. -/
theorem destroy_idempotent_single_release (sys : Sys) (tid id : Nat) :
    (mapLookup sys.entries id = none →
        destroy_webview_inner sys tid id = (sys, .ok ())) ∧
    (∀ entry, mapLookup sys.entries id = some entry → entry.thread_id = tid →
        (destroy_webview_inner sys tid id).2 = .ok () ∧
        (destroy_webview_inner sys tid id).1.trace = sys.trace ++ [.dropWebView id] ∧
        destroy_webview_inner (destroy_webview_inner sys tid id).1 tid id
          = ((destroy_webview_inner sys tid id).1, .ok ())) := by
  constructor
  · intro habs
    simp [destroy_webview_inner, habs]
  · intro entry hlook hth
    refine ⟨?_, ?_, ?_⟩ <;>
      simp [destroy_webview_inner, hlook, hth, mapLookup_mapRemove_self]

/-- Witness for `destroy_idempotent_single_release`: destroy id 1 twice from
its owning thread 7. -/
theorem destroy_idempotent_single_release_witness :
    (destroy_webview_inner sysOne 7 1).2 = .ok () ∧
    (destroy_webview_inner sysOne 7 1).1.trace = sysOne.trace ++ [.dropWebView 1] ∧
    destroy_webview_inner (destroy_webview_inner sysOne 7 1).1 7 1
      = ((destroy_webview_inner sysOne 7 1).1, .ok ()) :=
  (destroy_idempotent_single_release sysOne 7 1).2
    ⟨7, ⟨true, "https://a"⟩⟩ (by rfl) (by rfl)

/-- C5: each of loadUrl, goBack, goForward, reload stores `loading = true`
through the entry's shared state before dispatching the native call, so
immediately after the operation returns, `isLoading(id)` reads `true` (the
eager store happens whether or not the subsequent native dispatch is
permitted). -/
theorem nav_ops_eagerly_set_loading (sys : Sys) (tid id : Nat) (op : ResOp)
    (entry : WebViewEntry)
    (hnav : isNavOp op = true)
    (hlook : mapLookup sys.entries id = some entry) :
    is_loading (run_resource_op sys tid id op).1 id = .ok true := by
  cases op with
  | opLoadUrl url =>
      by_cases hth : entry.thread_id = tid <;>
        simp [run_resource_op, load_url_inner, get_state, hlook, set_loading,
              with_webview, mapLookup_mapUpdateState_self, is_loading, hth]
  | opGoBack =>
      by_cases hth : entry.thread_id = tid <;>
        simp [run_resource_op, go_back_inner, get_state, hlook, set_loading,
              with_webview, mapLookup_mapUpdateState_self, is_loading, hth]
  | opGoForward =>
      by_cases hth : entry.thread_id = tid <;>
        simp [run_resource_op, go_forward_inner, get_state, hlook, set_loading,
              with_webview, mapLookup_mapUpdateState_self, is_loading, hth]
  | opReload =>
      by_cases hth : entry.thread_id = tid <;>
        simp [run_resource_op, reload_inner, get_state, hlook, set_loading,
              with_webview, mapLookup_mapUpdateState_self, is_loading, hth]
  | opSetBounds x y w h => simp [isNavOp] at hnav
  | opFocus => simp [isNavOp] at hnav
  | opDestroy => simp [isNavOp] at hnav

/-- Witness for `nav_ops_eagerly_set_loading`: after `loadUrl` on id 1,
`isLoading 1` is true. -/
theorem nav_ops_eagerly_set_loading_witness :
    is_loading (run_resource_op sysOne 7 1 (.opLoadUrl "https://example.test")).1 1
      = .ok true :=
  nav_ops_eagerly_set_loading sysOne 7 1 (.opLoadUrl "https://example.test")
    ⟨7, ⟨true, "https://a"⟩⟩ (by rfl) (by rfl)

/-- C6: firing the page-load callback of a live webview with the Started
phase stores `loading = true`; firing it with the Finished phase for URL `U`
stores `loading = false` and `currentUrl = U`, after which `getUrl(id)`
returns `U` and `isLoading(id)` returns `false`. -/
theorem page_load_callback_updates_state (sys : Sys) (id : Nat) (url : String)
    (entry : WebViewEntry)
    (hlook : mapLookup sys.entries id = some entry) :
    is_loading (fire_page_load sys id .started url) id = .ok true ∧
    get_url (fire_page_load sys id .finished url) id = .ok url ∧
    is_loading (fire_page_load sys id .finished url) id = .ok false := by
  refine ⟨?_, ?_, ?_⟩ <;>
    simp [fire_page_load, is_loading, get_url, get_state,
          mapLookup_mapUpdateState_self, hlook, page_load_handler]

/-- Witness for `page_load_callback_updates_state` on webview 1. -/
theorem page_load_callback_updates_state_witness :
    is_loading (fire_page_load sysOne 1 .started "https://u.test") 1 = .ok true ∧
    get_url (fire_page_load sysOne 1 .finished "https://u.test") 1 = .ok "https://u.test" ∧
    is_loading (fire_page_load sysOne 1 .finished "https://u.test") 1 = .ok false :=
  page_load_callback_updates_state sysOne 1 "https://u.test"
    ⟨7, ⟨true, "https://a"⟩⟩ (by rfl)

/-- C10: immediately after a successful `create(parentHandle, width, height,
url)` returning `id`, and before any callback has run, `getUrl(id)` returns
exactly the url passed to create and `isLoading(id)` returns true: the entry's
navigation state is initialized to `{ loading: true, currentUrl: url }`. -/
theorem create_initializes_navigation_state (sys sys' : Sys) (env : Env)
    (tid parent_handle : Nat) (width height : Int) (url : String) (id : Nat)
    (hc : create_webview_inner sys env tid parent_handle width height url
            = (sys', .ok id)) :
    get_url sys' id = .ok url ∧ is_loading sys' id = .ok true := by
  rcases hraw : raw_window_handle_from env parent_handle with e | raw
  · simp [create_webview_inner, hraw, Prod.ext_iff] at hc
  · rcases hgtk : (if env.platform = .linux then env.gtkInitFailure else none) with _ | msg
    · rcases hbuild : env.buildFailure with _ | msg
      · simp [create_webview_inner, hraw, hgtk, hbuild, Prod.ext_iff] at hc
        obtain ⟨hsys, hid⟩ := hc
        subst hsys
        subst hid
        simp [get_url, is_loading, get_state, mapLookup_mapInsert_self]
      · simp [create_webview_inner, hraw, hgtk, hbuild, Prod.ext_iff] at hc
    · simp [create_webview_inner, hraw, hgtk, Prod.ext_iff] at hc

/-- Witness for `create_initializes_navigation_state` on a concrete create. -/
theorem create_initializes_navigation_state_witness :
    get_url sysAfterCreate 1 = .ok "https://example.test" ∧
    is_loading sysAfterCreate 1 = .ok true :=
  create_initializes_navigation_state initSys sysAfterCreate envWin 7 5 640 480
    "https://example.test" 1 (by rfl)

theorem keysOf_mapUpdateState (m : List (Nat × WebViewEntry)) (k : Nat)
    (f : WebViewState → WebViewState) :
    keysOf (mapUpdateState m k f) = keysOf m := by
  induction m with
  | nil => rfl
  | cons p rest ih =>
      obtain ⟨k', v'⟩ := p
      by_cases h : k' = k <;> simp [mapUpdateState, keysOf, h] <;>
        simpa [keysOf] using ih

theorem keysOf_mapRemove_sublist (m : List (Nat × WebViewEntry)) (k : Nat) :
    List.Sublist (keysOf (mapRemove m k)) (keysOf m) := by
  simpa [mapRemove, keysOf] using List.Sublist.map Prod.fst (List.filter_sublist m)

theorem mem_keysOf_mapInsert (m : List (Nat × WebViewEntry)) (k : Nat)
    (v : WebViewEntry) (a : Nat) (ha : a ∈ keysOf (mapInsert m k v)) :
    a = k ∨ a ∈ keysOf m := by
  induction m with
  | nil => simpa [mapInsert, keysOf] using ha
  | cons p rest ih =>
      obtain ⟨k', v'⟩ := p
      by_cases h : k' = k
      · simp [mapInsert, keysOf, h] at ha ⊢
        tauto
      · simp [mapInsert, keysOf, h] at ha ⊢
        rcases ha with ha | ha
        · tauto
        · rcases ih (by simpa [keysOf] using ha) with h1 | h1
          · tauto
          · simp [keysOf] at h1
            tauto

theorem keysOf_mapInsert_nodup (m : List (Nat × WebViewEntry)) (k : Nat)
    (v : WebViewEntry) (h : (keysOf m).Nodup) :
    (keysOf (mapInsert m k v)).Nodup := by
  induction m with
  | nil => simp [mapInsert, keysOf]
  | cons p rest ih =>
      obtain ⟨k', v'⟩ := p
      simp only [keysOf, List.map_cons, List.nodup_cons] at h
      obtain ⟨hnotin, hnd⟩ := h
      by_cases hk : k' = k
      · subst hk
        have hins : mapInsert ((k', v') :: rest) k' v = (k', v) :: rest := by
          simp [mapInsert]
        rw [hins]
        simp only [keysOf, List.map_cons, List.nodup_cons]
        exact ⟨hnotin, hnd⟩
      · have hins : mapInsert ((k', v') :: rest) k v = (k', v') :: mapInsert rest k v := by
          simp [mapInsert, hk]
        rw [hins]
        simp only [keysOf, List.map_cons, List.nodup_cons]
        refine ⟨?_, ih (by simpa [keysOf] using hnd)⟩
        intro hmem
        rcases mem_keysOf_mapInsert rest k v k' (by simpa [keysOf] using hmem) with h1 | h1
        · exact hk h1
        · exact hnotin (by simpa [keysOf] using h1)

theorem with_webview_shape (sys : Sys) (tid id : Nat) (call : NativeCall) :
    (with_webview sys tid id call).1.nextId = sys.nextId ∧
    (with_webview sys tid id call).1.entries = sys.entries := by
  unfold with_webview
  cases hm : mapLookup sys.entries id with
  | none => exact ⟨rfl, rfl⟩
  | some entry => by_cases hth : entry.thread_id ≠ tid <;> simp [hth]

theorem run_resource_op_shape (sys : Sys) (tid id : Nat) (op : ResOp) :
    (run_resource_op sys tid id op).1.nextId = sys.nextId ∧
    List.Sublist (keysOf (run_resource_op sys tid id op).1.entries)
      (keysOf sys.entries) := by
  cases op with
  | opSetBounds x y w h =>
      obtain ⟨h1, h2⟩ := with_webview_shape sys tid id
        (.setBounds id (make_bounds x y w h))
      exact ⟨h1, by simp [run_resource_op, set_bounds_inner, h2]⟩
  | opLoadUrl url =>
      simp only [run_resource_op, load_url_inner]
      cases hg : get_state sys id with
      | ok st =>
          obtain ⟨h1, h2⟩ := with_webview_shape (set_loading sys id true) tid id
            (.loadUrl id url)
          refine ⟨by rw [h1]; rfl, ?_⟩
          rw [h2]
          simp [set_loading, keysOf_mapUpdateState]
      | error e =>
          obtain ⟨h1, h2⟩ := with_webview_shape sys tid id (.loadUrl id url)
          exact ⟨h1, by rw [h2]⟩
  | opGoBack =>
      simp only [run_resource_op, go_back_inner]
      cases hg : get_state sys id with
      | ok st =>
          obtain ⟨h1, h2⟩ := with_webview_shape (set_loading sys id true) tid id
            (.evalScript id "window.history.back()")
          refine ⟨by rw [h1]; rfl, ?_⟩
          rw [h2]
          simp [set_loading, keysOf_mapUpdateState]
      | error e =>
          obtain ⟨h1, h2⟩ := with_webview_shape sys tid id
            (.evalScript id "window.history.back()")
          exact ⟨h1, by rw [h2]⟩
  | opGoForward =>
      simp only [run_resource_op, go_forward_inner]
      cases hg : get_state sys id with
      | ok st =>
          obtain ⟨h1, h2⟩ := with_webview_shape (set_loading sys id true) tid id
            (.evalScript id "window.history.forward()")
          refine ⟨by rw [h1]; rfl, ?_⟩
          rw [h2]
          simp [set_loading, keysOf_mapUpdateState]
      | error e =>
          obtain ⟨h1, h2⟩ := with_webview_shape sys tid id
            (.evalScript id "window.history.forward()")
          exact ⟨h1, by rw [h2]⟩
  | opReload =>
      simp only [run_resource_op, reload_inner]
      cases hg : get_state sys id with
      | ok st =>
          obtain ⟨h1, h2⟩ := with_webview_shape (set_loading sys id true) tid id
            (.evalScript id "window.location.reload()")
          refine ⟨by rw [h1]; rfl, ?_⟩
          rw [h2]
          simp [set_loading, keysOf_mapUpdateState]
      | error e =>
          obtain ⟨h1, h2⟩ := with_webview_shape sys tid id
            (.evalScript id "window.location.reload()")
          exact ⟨h1, by rw [h2]⟩
  | opFocus =>
      obtain ⟨h1, h2⟩ := with_webview_shape sys tid id
        (.evalScript id "document.documentElement.focus(); window.focus();")
      exact ⟨h1, by simp [run_resource_op, focus_inner, h2]⟩
  | opDestroy =>
      simp only [run_resource_op, destroy_webview_inner]
      cases hm : mapLookup sys.entries id with
      | none => simp
      | some entry =>
          by_cases hth : entry.thread_id ≠ tid <;>
            simp [hth, keysOf_mapRemove_sublist]

theorem create_webview_inner_ok (sys : Sys) (env : Env) (tid : Nat)
    (p : Nat) (w h : Int) (url : String) (hok : createOk env p = true) :
    (create_webview_inner sys env tid p w h url).2 = .ok sys.nextId ∧
    (create_webview_inner sys env tid p w h url).1.nextId = sys.nextId + 1 ∧
    ∃ entry, (create_webview_inner sys env tid p w h url).1.entries
      = mapInsert sys.entries sys.nextId entry := by
  unfold createOk at hok
  unfold create_webview_inner
  cases hraw : raw_window_handle_from env p with
  | error e => rw [hraw] at hok; simp at hok
  | ok raw =>
      rw [hraw] at hok
      cases hgtk : (if env.platform = .linux then env.gtkInitFailure else none) with
      | some msg => rw [hgtk] at hok; simp at hok
      | none =>
          rw [hgtk] at hok
          cases hbuild : env.buildFailure with
          | some msg => rw [hbuild] at hok; simp at hok
          | none => exact ⟨rfl, rfl, ⟨⟨tid, ⟨true, url⟩⟩, rfl⟩⟩

theorem create_webview_inner_fail (sys : Sys) (env : Env) (tid : Nat)
    (p : Nat) (w h : Int) (url : String) (hfail : createOk env p = false) :
    (create_webview_inner sys env tid p w h url).1 = sys ∧
    ∃ e, (create_webview_inner sys env tid p w h url).2 = .error e := by
  unfold createOk at hfail
  unfold create_webview_inner
  cases hraw : raw_window_handle_from env p with
  | error e => exact ⟨rfl, ⟨e, rfl⟩⟩
  | ok raw =>
      rw [hraw] at hfail
      cases hgtk : (if env.platform = .linux then env.gtkInitFailure else none) with
      | some msg => exact ⟨rfl, ⟨.GtkInit msg, rfl⟩⟩
      | none =>
          rw [hgtk] at hfail
          cases hbuild : env.buildFailure with
          | some msg => exact ⟨rfl, ⟨.WryError msg, rfl⟩⟩
          | none => rw [hbuild] at hfail; simp at hfail

theorem runCmds_spec (cs : List Cmd) (sys : Sys) :
    (runCmds sys cs).2 = List.range' sys.nextId (createCount cs) ∧
    (runCmds sys cs).1.nextId = sys.nextId + createCount cs := by
  induction cs generalizing sys with
  | nil => simp [runCmds, createCount]
  | cons c rest ih =>
      cases c with
      | cmdCreate env tid p w h url =>
          by_cases hok : createOk env p
          · obtain ⟨h2, h1, -⟩ := create_webview_inner_ok sys env tid p w h url hok
            obtain ⟨ihids, ihnext⟩ := ih ((create_webview_inner sys env tid p w h url).1)
            refine ⟨?_, ?_⟩
            · simp only [runCmds, stepCmd, h2, Option.toList, ihids, h1, createCount, hok,
                if_pos]
              rw [List.range'_succ]
              rfl
            · simp only [runCmds, stepCmd, createCount, hok, if_pos, ihnext, h1]
              omega
          · rw [Bool.not_eq_true] at hok
            obtain ⟨h1, e, h2⟩ := create_webview_inner_fail sys env tid p w h url hok
            obtain ⟨ihids, ihnext⟩ := ih ((create_webview_inner sys env tid p w h url).1)
            rw [h1] at ihids ihnext
            refine ⟨?_, ?_⟩
            · simpa [runCmds, stepCmd, h2, h1, createCount, hok] using ihids
            · simpa [runCmds, stepCmd, h1, createCount, hok] using ihnext
      | cmdOp tid id op =>
          obtain ⟨h1, -⟩ := run_resource_op_shape sys tid id op
          obtain ⟨ihids, ihnext⟩ := ih ((run_resource_op sys tid id op).1)
          exact ⟨by simpa [runCmds, stepCmd, createCount, h1] using ihids,
                 by simpa [runCmds, stepCmd, createCount, h1] using ihnext⟩
      | cmdPageLoad id ev url =>
          obtain ⟨ihids, ihnext⟩ := ih (fire_page_load sys id ev url)
          exact ⟨by simpa [runCmds, stepCmd, createCount, fire_page_load] using ihids,
                 by simpa [runCmds, stepCmd, createCount, fire_page_load] using ihnext⟩

theorem stepCmd_keys_nodup (sys : Sys) (c : Cmd)
    (h : (keysOf sys.entries).Nodup) :
    (keysOf (stepCmd sys c).1.entries).Nodup := by
  cases c with
  | cmdCreate env tid p w hh url =>
      by_cases hok : createOk env p
      · obtain ⟨-, -, entry, hent⟩ := create_webview_inner_ok sys env tid p w hh url hok
        simp only [stepCmd]
        rw [hent]
        exact keysOf_mapInsert_nodup _ _ _ h
      · rw [Bool.not_eq_true] at hok
        obtain ⟨h1, -⟩ := create_webview_inner_fail sys env tid p w hh url hok
        simp only [stepCmd]
        rw [h1]
        exact h
  | cmdOp tid id op =>
      exact List.Nodup.sublist (run_resource_op_shape sys tid id op).2 h
  | cmdPageLoad id ev url =>
      simpa [stepCmd, fire_page_load, keysOf_mapUpdateState] using h

theorem runCmds_keys_nodup (cs : List Cmd) (sys : Sys)
    (h : (keysOf sys.entries).Nodup) :
    (keysOf (runCmds sys cs).1.entries).Nodup := by
  induction cs generalizing sys with
  | nil => simpa [runCmds] using h
  | cons c rest ih =>
      simp only [runCmds]
      exact ih (stepCmd sys c).1 (stepCmd_keys_nodup sys c h)

/-- C2: for every sequence of commands (creates with arbitrary per-call
environments, interleaved with destroys, other resource operations, and
callback firings), the ids returned by the successful creates are exactly
`[1, 2, ..., n]`: they start at 1, are strictly increasing, and are never
reused even after destroys; and the registry never holds two live entries for
the same id. -/
theorem create_ids_start_one_monotone_unique (cs : List Cmd) :
    (runCmds initSys cs).2 = List.range' 1 (createCount cs) ∧
    List.Pairwise (· < ·) (runCmds initSys cs).2 ∧
    (keysOf (runCmds initSys cs).1.entries).Nodup := by
  obtain ⟨hids, -⟩ := runCmds_spec cs initSys
  refine ⟨hids, ?_, runCmds_keys_nodup cs initSys (by simp [initSys, keysOf])⟩
  rw [hids]
  exact List.pairwise_lt_range' 1 (createCount cs)

end WryWebview
